import Mathlib

/-!
Shallow embedding of `src/ui/litellm-dashboard/src/app/page.tsx`, the root
page component of the LiteLLM administration dashboard.  The component's
pure logic (role formatting, page routing, URL query-string manipulation)
is translated to Lean functions; the React effects (token decoding,
reference-data loading) are translated to explicit state-transition
functions on a record of the component's state.
-/

namespace LitellmDashboard

/-- JavaScript truthiness of a string: falsy exactly when empty. -/
def truthyS (s : String) : Bool := !(s == "")

/-- JavaScript truthiness of a nullable string (`null`/`undefined` is `none`). -/
def truthyOpt : Option String → Bool
  | none => false
  | some s => truthyS s

/-- Model of JavaScript `String.prototype.toLowerCase` at the ASCII level:
lower-cases every character. -/
def jsToLowerCase (s : String) : String := ⟨s.data.map Char.toLower⟩

/-- The `switch (userRole.toLowerCase())` statement of `formatUserRole`
(page.tsx lines 51-72), applied to the already-lower-cased string. -/
def roleSwitch (lower : String) : String :=
  if lower = "app_owner" then "App Owner"
  else if lower = "demo_app_owner" then "App Owner"
  else if lower = "app_admin" then "Admin"
  else if lower = "proxy_admin" then "Admin"
  else if lower = "proxy_admin_viewer" then "Admin Viewer"
  else if lower = "org_admin" then "Org Admin"
  else if lower = "internal_user" then "Internal User"
  else if lower = "internal_viewer" then "Internal Viewer"
  else if lower = "app_user" then "App User"
  else "Unknown Role"

/-- `formatUserRole` (page.tsx lines 45-73).  The input is `Option String`
so that the JavaScript `undefined` argument is representable as `none`;
`!userRole` is true exactly for `undefined`/`null` and the empty string. -/
def formatUserRole : Option String → String
  | none => "Undefined Role"
  | some s => if s = "" then "Undefined Role" else roleSwitch (jsToLowerCase s)

/-- The known raw role strings and their labels, as enumerated by the spec. -/
def roleTable : List (String × String) :=
  [("app_owner", "App Owner"), ("demo_app_owner", "App Owner"),
   ("app_admin", "Admin"), ("proxy_admin", "Admin"),
   ("proxy_admin_viewer", "Admin Viewer"), ("org_admin", "Org Admin"),
   ("internal_user", "Internal User"), ("internal_viewer", "Internal Viewer"),
   ("app_user", "App User")]

theorem char_toLower_idem (c : Char) : c.toLower.toLower = c.toLower := by
  by_cases h : 65 ≤ c.toNat ∧ c.toNat ≤ 90
  · obtain ⟨n, hn, h1, h2⟩ : ∃ n, Char.ofNat n = c ∧ 65 ≤ n ∧ n ≤ 90 :=
      ⟨c.toNat, Char.ofNat_toNat c, h.1, h.2⟩
    subst hn
    interval_cases n <;> decide
  · have hfix : c.toLower = c := by
      unfold Char.toLower
      simp [h]
    rw [hfix, hfix]

theorem jsToLowerCase_idem (s : String) :
    jsToLowerCase (jsToLowerCase s) = jsToLowerCase s := by
  unfold jsToLowerCase
  simp [List.map_map, Function.comp_def, char_toLower_idem]

theorem jsToLowerCase_eq_empty_iff (s : String) :
    jsToLowerCase s = "" ↔ s = "" := by
  unfold jsToLowerCase
  cases s with
  | mk data =>
    constructor
    · intro h
      have hdata : data.map Char.toLower = ([] : List Char) := congrArg String.data h
      have : data = [] := List.map_eq_nil_iff.mp hdata
      simp [this]
    · intro h
      have : data = [] := congrArg String.data h
      simp [this]

theorem roleSwitch_eq_lookup (r : String) :
    roleSwitch r = (roleTable.lookup r).getD "Unknown Role" := by
  by_cases h1 : r = "app_owner"
  · subst h1; decide
  by_cases h2 : r = "demo_app_owner"
  · subst h2; decide
  by_cases h3 : r = "app_admin"
  · subst h3; decide
  by_cases h4 : r = "proxy_admin"
  · subst h4; decide
  by_cases h5 : r = "proxy_admin_viewer"
  · subst h5; decide
  by_cases h6 : r = "org_admin"
  · subst h6; decide
  by_cases h7 : r = "internal_user"
  · subst h7; decide
  by_cases h8 : r = "internal_viewer"
  · subst h8; decide
  by_cases h9 : r = "app_user"
  · subst h9; decide
  have e1 : (r == "app_owner") = false := beq_eq_false_iff_ne.mpr h1
  have e2 : (r == "demo_app_owner") = false := beq_eq_false_iff_ne.mpr h2
  have e3 : (r == "app_admin") = false := beq_eq_false_iff_ne.mpr h3
  have e4 : (r == "proxy_admin") = false := beq_eq_false_iff_ne.mpr h4
  have e5 : (r == "proxy_admin_viewer") = false := beq_eq_false_iff_ne.mpr h5
  have e6 : (r == "org_admin") = false := beq_eq_false_iff_ne.mpr h6
  have e7 : (r == "internal_user") = false := beq_eq_false_iff_ne.mpr h7
  have e8 : (r == "internal_viewer") = false := beq_eq_false_iff_ne.mpr h8
  have e9 : (r == "app_user") = false := beq_eq_false_iff_ne.mpr h9
  simp [roleSwitch, roleTable, List.lookup, h1, h2, h3, h4, h5, h6, h7, h8, h9,
    e1, e2, e3, e4, e5, e6, e7, e8, e9]

/-! ## URL query parameters

`URLSearchParams` is modelled as an ordered list of name/value pairs.
`paramsGet` is `URLSearchParams.get` (first value for the name, or null);
`paramsSet` is `URLSearchParams.set` (overwrite the first pair with the
name and drop the others, or append when absent). -/

/-- `URLSearchParams.get`: the value of the first pair with name `k`. -/
def paramsGet : List (String × String) → String → Option String
  | [], _ => none
  | p :: ps, k => if p.1 = k then some p.2 else paramsGet ps k

/-- Drop every pair whose name is `k`. -/
def removeAllParams : List (String × String) → String → List (String × String)
  | [], _ => []
  | p :: ps, k => if p.1 = k then removeAllParams ps k else p :: removeAllParams ps k

/-- `URLSearchParams.set`: replace the first pair named `k`, remove later
duplicates, or append when no pair is named `k`. -/
def paramsSet : List (String × String) → String → String → List (String × String)
  | [], k, v => [(k, v)]
  | p :: ps, k, v => if p.1 = k then (k, v) :: removeAllParams ps k else p :: paramsSet ps k v

/-! ## The component state and its effects -/

/-- The decoded JWT payload fields read by the component (page.tsx
lines 134-180).  `none` models an absent (`undefined`) field. -/
structure JwtPayload where
  key : Option String
  user_role : Option String
  user_email : Option String
  login_method : Option String
  premium_user : Option Bool
  disabled_non_admin_personal_key_creation : Option Bool
  auth_header_name : Option String
deriving Repr, DecidableEq

/-- The component's state plus the pieces of browser/module state it
touches: the URL query string (`urlParams`) and the networking module's
global header name. -/
structure DashState where
  userRole : String
  premiumUser : Bool
  disabledPersonalKeyCreation : Option Bool
  userEmail : Option String
  showSSOBanner : Bool
  token : Option String
  page : String
  accessToken : Option String
  globalLitellmHeaderName : Option String
  urlParams : List (String × String)
deriving Repr, DecidableEq

/-- Initial page state (page.tsx lines 106-108):
`searchParams.get("page") || "api-keys"` (the empty string is falsy). -/
def initPage (ps : List (String × String)) : String :=
  match paramsGet ps "page" with
  | some v => if v = "" then "api-keys" else v
  | none => "api-keys"

/-- `updatePage` (page.tsx lines 111-120): rewrite the `page` query
parameter via `URLSearchParams.set` + `history.pushState`, then `setPage`. -/
def updatePage (newPage : String) (s : DashState) : DashState :=
  { s with urlParams := paramsSet s.urlParams "page" newPage, page := newPage }

/-- First effect (page.tsx lines 124-127): load the `token` cookie into
state.  `cookie` is the value of `getCookie("token")`. -/
def readTokenEffect (cookie : Option String) (s : DashState) : DashState :=
  { s with token := cookie }

/-- `setAccessToken(decoded.key)` and
`setDisabledPersonalKeyCreation(decoded.disabled_non_admin_personal_key_creation)`
(page.tsx lines 141-145). -/
def stageAccess (d : JwtPayload) (s : DashState) : DashState :=
  { s with accessToken := d.key,
           disabledPersonalKeyCreation := d.disabled_non_admin_personal_key_creation }

/-- `if (decoded.user_role) { ... }` (page.tsx lines 148-157): format the
role, store it, and redirect the in-memory page to "usage" for the
"Admin Viewer" label. -/
def stageRole (d : JwtPayload) (s : DashState) : DashState :=
  match d.user_role with
  | none => s
  | some r =>
    if r = "" then s
    else
      let fr := formatUserRole (some r)
      let s' := { s with userRole := fr }
      if fr = "Admin Viewer" then { s' with page := "usage" } else s'

/-- `if (decoded.user_email) { setUserEmail(...) }` (page.tsx lines 159-163). -/
def stageEmail (d : JwtPayload) (s : DashState) : DashState :=
  match d.user_email with
  | none => s
  | some e => if e = "" then s else { s with userEmail := some e }

/-- `if (decoded.login_method) { setShowSSOBanner(...) }` (page.tsx lines 165-171). -/
def stageSSO (d : JwtPayload) (s : DashState) : DashState :=
  match d.login_method with
  | none => s
  | some m => if m = "" then s else { s with showSSOBanner := (m == "username_password") }

/-- `if (decoded.premium_user) { setPremiumUser(...) }` (page.tsx lines 173-175). -/
def stagePremium (d : JwtPayload) (s : DashState) : DashState :=
  match d.premium_user with
  | none => s
  | some b => if b then { s with premiumUser := b } else s

/-- `if (decoded.auth_header_name) { setGlobalLitellmHeaderName(...) }`
(page.tsx lines 177-179). -/
def stageHeader (d : JwtPayload) (s : DashState) : DashState :=
  match d.auth_header_name with
  | none => s
  | some h => if h = "" then s else { s with globalLitellmHeaderName := some h }

/-- Token-decoding effect (page.tsx lines 129-181).  `decode` models
`jwtDecode`; `decode t = none` models a thrown decode error, which aborts
the effect before any state update. -/
def tokenDecodeEffect (decode : String → Option JwtPayload) (s : DashState) : DashState :=
  match s.token with
  | none => s
  | some t =>
    if t = "" then s
    else
      match decode t with
      | none => s
      | some d => stageHeader d (stagePremium d (stageSSO d (stageEmail d (stageRole d (stageAccess d s)))))

/-- Which of the three reference-data fetches fire in the effect at
page.tsx lines 183-193, as a function of the dependency values. -/
structure RefFetches where
  fetchUserModels : Bool
  fetchTeams : Bool
  fetchOrganizations : Bool
deriving Repr, DecidableEq

/-- Reference-data effect (page.tsx lines 183-193): the models and teams
fetches are guarded by `accessToken && userID && userRole`, the
organizations fetch by `accessToken` alone. -/
def refDataEffect (accessToken userID : Option String) (userRole : String) : RefFetches :=
  { fetchUserModels := truthyOpt accessToken && truthyOpt userID && truthyS userRole
    fetchTeams := truthyOpt accessToken && truthyOpt userID && truthyS userRole
    fetchOrganizations := truthyOpt accessToken }

/-! ## The panel routing chain -/

/-- One constructor per panel component the routing chain can render. -/
inductive Panel where
  | userDashboard
  | modelDashboard
  | chatUI
  | viewUserDashboard
  | teamsPanel
  | organizationsPanel
  | adminPanel
  | apiRef
  | settingsPanel
  | budgetPanel
  | guardrailsPanel
  | generalSettings
  | modelHub
  | cacheDashboard
  | passThroughSettings
  | spendLogsTable
  | mcpToolsViewer
  | tagManagement
  | newUsagePage
  | usage
deriving Repr, DecidableEq

/-- The conditional routing chain (page.tsx lines 233-381): the first
matching page identifier wins, and everything else falls through to the
`Usage` panel. -/
def selectPanel (page : String) : Panel :=
  if page = "api-keys" then .userDashboard
  else if page = "models" then .modelDashboard
  else if page = "llm-playground" then .chatUI
  else if page = "users" then .viewUserDashboard
  else if page = "teams" then .teamsPanel
  else if page = "organizations" then .organizationsPanel
  else if page = "admin-panel" then .adminPanel
  else if page = "api_ref" then .apiRef
  else if page = "settings" then .settingsPanel
  else if page = "budgets" then .budgetPanel
  else if page = "guardrails" then .guardrailsPanel
  else if page = "general-settings" then .generalSettings
  else if page = "model-hub" then .modelHub
  else if page = "caching" then .cacheDashboard
  else if page = "pass-through-settings" then .passThroughSettings
  else if page = "logs" then .spendLogsTable
  else if page = "mcp-tools" then .mcpToolsViewer
  else if page = "tag-management" then .tagManagement
  else if page = "new_usage" then .newUsagePage
  else .usage

/-- The known page identifiers and their panels, as a lookup table
(the spec's "known set of page identifiers"). -/
def knownPanels : List (String × Panel) :=
  [("api-keys", .userDashboard), ("models", .modelDashboard),
   ("llm-playground", .chatUI), ("users", .viewUserDashboard),
   ("teams", .teamsPanel), ("organizations", .organizationsPanel),
   ("admin-panel", .adminPanel), ("api_ref", .apiRef),
   ("settings", .settingsPanel), ("budgets", .budgetPanel),
   ("guardrails", .guardrailsPanel), ("general-settings", .generalSettings),
   ("model-hub", .modelHub), ("caching", .cacheDashboard),
   ("pass-through-settings", .passThroughSettings), ("logs", .spendLogsTable),
   ("mcp-tools", .mcpToolsViewer), ("tag-management", .tagManagement),
   ("new_usage", .newUsagePage)]

/-! ## Helper lemmas -/

/-- A nullable string is truthy exactly when it is a non-empty `some`. -/
def presentOpt (x : Option String) : Prop := ∃ v, x = some v ∧ v ≠ ""

theorem truthyOpt_eq_true_iff (x : Option String) :
    truthyOpt x = true ↔ presentOpt x := by
  cases x with
  | none => simp [truthyOpt, presentOpt]
  | some v => simp [truthyOpt, truthyS, presentOpt]

theorem truthyS_eq_true_iff (r : String) : truthyS r = true ↔ r ≠ "" := by
  simp [truthyS]

theorem paramsGet_paramsSet_same (ps : List (String × String)) (k v : String) :
    paramsGet (paramsSet ps k v) k = some v := by
  induction ps with
  | nil => simp [paramsSet, paramsGet]
  | cons p ps ih =>
    by_cases h : p.1 = k
    · simp [paramsSet, h, paramsGet]
    · simp only [paramsSet, if_neg h]
      simpa [paramsGet, h] using ih

theorem paramsGet_removeAll_other (ps : List (String × String)) (k k' : String)
    (h : k' ≠ k) : paramsGet (removeAllParams ps k) k' = paramsGet ps k' := by
  induction ps with
  | nil => rfl
  | cons p ps ih =>
    by_cases hp : p.1 = k
    · have hpk' : ¬ p.1 = k' := by rw [hp]; exact Ne.symm h
      simp only [removeAllParams, if_pos hp, paramsGet, if_neg hpk']
      exact ih
    · by_cases hk' : p.1 = k'
      · simp only [removeAllParams, if_neg hp, paramsGet, if_pos hk']
      · simp only [removeAllParams, if_neg hp, paramsGet, if_neg hk']
        exact ih

theorem paramsGet_paramsSet_other (ps : List (String × String)) (k v k' : String)
    (h : k' ≠ k) : paramsGet (paramsSet ps k v) k' = paramsGet ps k' := by
  induction ps with
  | nil => simp [paramsSet, paramsGet, Ne.symm h]
  | cons p ps ih =>
    by_cases hp : p.1 = k
    · have hpk' : ¬ p.1 = k' := by rw [hp]; exact Ne.symm h
      simp only [paramsSet, if_pos hp, paramsGet, if_neg (Ne.symm h), if_neg hpk']
      exact paramsGet_removeAll_other ps k k' h
    · simp only [paramsSet, if_neg hp]
      by_cases hk' : p.1 = k'
      · simp [paramsGet, hk']
      · simp only [paramsGet, if_neg hk']
        exact ih

theorem stageAccess_page (d : JwtPayload) (s : DashState) :
    (stageAccess d s).page = s.page := rfl

theorem stageRole_accessToken (d : JwtPayload) (s : DashState) :
    (stageRole d s).accessToken = s.accessToken := by
  unfold stageRole
  cases d.user_role with
  | none => rfl
  | some r =>
    by_cases hr : r = ""
    · simp [hr]
    · by_cases hfr : formatUserRole (some r) = "Admin Viewer" <;> simp [hr, hfr]

theorem stageEmail_page (d : JwtPayload) (s : DashState) :
    (stageEmail d s).page = s.page := by
  unfold stageEmail
  cases d.user_email with
  | none => rfl
  | some e => by_cases he : e = "" <;> simp [he]

theorem stageEmail_accessToken (d : JwtPayload) (s : DashState) :
    (stageEmail d s).accessToken = s.accessToken := by
  unfold stageEmail
  cases d.user_email with
  | none => rfl
  | some e => by_cases he : e = "" <;> simp [he]

theorem stageSSO_page (d : JwtPayload) (s : DashState) :
    (stageSSO d s).page = s.page := by
  unfold stageSSO
  cases d.login_method with
  | none => rfl
  | some m => by_cases hm : m = "" <;> simp [hm]

theorem stageSSO_accessToken (d : JwtPayload) (s : DashState) :
    (stageSSO d s).accessToken = s.accessToken := by
  unfold stageSSO
  cases d.login_method with
  | none => rfl
  | some m => by_cases hm : m = "" <;> simp [hm]

theorem stagePremium_page (d : JwtPayload) (s : DashState) :
    (stagePremium d s).page = s.page := by
  unfold stagePremium
  cases d.premium_user with
  | none => rfl
  | some b => cases b <;> simp

theorem stagePremium_accessToken (d : JwtPayload) (s : DashState) :
    (stagePremium d s).accessToken = s.accessToken := by
  unfold stagePremium
  cases d.premium_user with
  | none => rfl
  | some b => cases b <;> simp

theorem stageHeader_page (d : JwtPayload) (s : DashState) :
    (stageHeader d s).page = s.page := by
  unfold stageHeader
  cases d.auth_header_name with
  | none => rfl
  | some h => by_cases hh : h = "" <;> simp [hh]

theorem stageHeader_accessToken (d : JwtPayload) (s : DashState) :
    (stageHeader d s).accessToken = s.accessToken := by
  unfold stageHeader
  cases d.auth_header_name with
  | none => rfl
  | some h => by_cases hh : h = "" <;> simp [hh]

theorem stageAccess_urlParams (d : JwtPayload) (s : DashState) :
    (stageAccess d s).urlParams = s.urlParams := rfl

theorem stageRole_urlParams (d : JwtPayload) (s : DashState) :
    (stageRole d s).urlParams = s.urlParams := by
  unfold stageRole
  cases d.user_role with
  | none => rfl
  | some r =>
    by_cases hr : r = ""
    · simp [hr]
    · by_cases hfr : formatUserRole (some r) = "Admin Viewer" <;> simp [hr, hfr]

theorem stageEmail_urlParams (d : JwtPayload) (s : DashState) :
    (stageEmail d s).urlParams = s.urlParams := by
  unfold stageEmail
  cases d.user_email with
  | none => rfl
  | some e => by_cases he : e = "" <;> simp [he]

theorem stageSSO_urlParams (d : JwtPayload) (s : DashState) :
    (stageSSO d s).urlParams = s.urlParams := by
  unfold stageSSO
  cases d.login_method with
  | none => rfl
  | some m => by_cases hm : m = "" <;> simp [hm]

theorem stagePremium_urlParams (d : JwtPayload) (s : DashState) :
    (stagePremium d s).urlParams = s.urlParams := by
  unfold stagePremium
  cases d.premium_user with
  | none => rfl
  | some b => cases b <;> simp

theorem stageHeader_urlParams (d : JwtPayload) (s : DashState) :
    (stageHeader d s).urlParams = s.urlParams := by
  unfold stageHeader
  cases d.auth_header_name with
  | none => rfl
  | some h => by_cases hh : h = "" <;> simp [hh]

theorem tokenDecodeEffect_urlParams (decode : String → Option JwtPayload)
    (s : DashState) : (tokenDecodeEffect decode s).urlParams = s.urlParams := by
  unfold tokenDecodeEffect
  cases s.token with
  | none => rfl
  | some t =>
    by_cases ht : t = ""
    · simp [ht]
    · simp only [if_neg ht]
      cases decode t with
      | none => rfl
      | some d =>
        rw [stageHeader_urlParams, stagePremium_urlParams, stageSSO_urlParams,
          stageEmail_urlParams, stageRole_urlParams, stageAccess_urlParams]

theorem tokenDecodeEffect_page_usage_aux (decode : String → Option JwtPayload)
    (s : DashState) (t : String) (d : JwtPayload)
    (ht : s.token = some t) (hne : t ≠ "") (hd : decode t = some d)
    (hrole : d.user_role = some "proxy_admin_viewer") :
    (tokenDecodeEffect decode s).page = "usage" := by
  unfold tokenDecodeEffect
  rw [ht]
  simp only [if_neg hne]
  rw [hd]
  rw [stageHeader_page, stagePremium_page, stageSSO_page, stageEmail_page]
  unfold stageRole
  rw [hrole]
  have hfr : formatUserRole (some "proxy_admin_viewer") = "Admin Viewer" := by decide
  simp [hfr]

theorem selectPanel_eq_lookup (p : String) :
    selectPanel p = (knownPanels.lookup p).getD Panel.usage := by
  by_cases h1 : p = "api-keys"
  · subst h1; decide
  by_cases h2 : p = "models"
  · subst h2; decide
  by_cases h3 : p = "llm-playground"
  · subst h3; decide
  by_cases h4 : p = "users"
  · subst h4; decide
  by_cases h5 : p = "teams"
  · subst h5; decide
  by_cases h6 : p = "organizations"
  · subst h6; decide
  by_cases h7 : p = "admin-panel"
  · subst h7; decide
  by_cases h8 : p = "api_ref"
  · subst h8; decide
  by_cases h9 : p = "settings"
  · subst h9; decide
  by_cases h10 : p = "budgets"
  · subst h10; decide
  by_cases h11 : p = "guardrails"
  · subst h11; decide
  by_cases h12 : p = "general-settings"
  · subst h12; decide
  by_cases h13 : p = "model-hub"
  · subst h13; decide
  by_cases h14 : p = "caching"
  · subst h14; decide
  by_cases h15 : p = "pass-through-settings"
  · subst h15; decide
  by_cases h16 : p = "logs"
  · subst h16; decide
  by_cases h17 : p = "mcp-tools"
  · subst h17; decide
  by_cases h18 : p = "tag-management"
  · subst h18; decide
  by_cases h19 : p = "new_usage"
  · subst h19; decide
  have e1 : (p == "api-keys") = false := beq_eq_false_iff_ne.mpr h1
  have e2 : (p == "models") = false := beq_eq_false_iff_ne.mpr h2
  have e3 : (p == "llm-playground") = false := beq_eq_false_iff_ne.mpr h3
  have e4 : (p == "users") = false := beq_eq_false_iff_ne.mpr h4
  have e5 : (p == "teams") = false := beq_eq_false_iff_ne.mpr h5
  have e6 : (p == "organizations") = false := beq_eq_false_iff_ne.mpr h6
  have e7 : (p == "admin-panel") = false := beq_eq_false_iff_ne.mpr h7
  have e8 : (p == "api_ref") = false := beq_eq_false_iff_ne.mpr h8
  have e9 : (p == "settings") = false := beq_eq_false_iff_ne.mpr h9
  have e10 : (p == "budgets") = false := beq_eq_false_iff_ne.mpr h10
  have e11 : (p == "guardrails") = false := beq_eq_false_iff_ne.mpr h11
  have e12 : (p == "general-settings") = false := beq_eq_false_iff_ne.mpr h12
  have e13 : (p == "model-hub") = false := beq_eq_false_iff_ne.mpr h13
  have e14 : (p == "caching") = false := beq_eq_false_iff_ne.mpr h14
  have e15 : (p == "pass-through-settings") = false := beq_eq_false_iff_ne.mpr h15
  have e16 : (p == "logs") = false := beq_eq_false_iff_ne.mpr h16
  have e17 : (p == "mcp-tools") = false := beq_eq_false_iff_ne.mpr h17
  have e18 : (p == "tag-management") = false := beq_eq_false_iff_ne.mpr h18
  have e19 : (p == "new_usage") = false := beq_eq_false_iff_ne.mpr h19
  simp [selectPanel, knownPanels, List.lookup, h1, h2, h3, h4, h5, h6, h7, h8, h9,
    h10, h11, h12, h13, h14, h15, h16, h17, h18, h19,
    e1, e2, e3, e4, e5, e6, e7, e8, e9, e10, e11, e12, e13, e14, e15, e16, e17,
    e18, e19]

/-- The component's initial state (page.tsx lines 83-122) as a function of
the initial URL query parameters: `userRole` starts as `""`, `premiumUser`
as `false`, `disabledPersonalKeyCreation` as `false`, `userEmail`, `token`
and `accessToken` as `null`, `showSSOBanner` as `true`, and `page` as
`searchParams.get("page") || "api-keys"`. -/
def mkInitState (ps : List (String × String)) : DashState :=
  { userRole := ""
    premiumUser := false
    disabledPersonalKeyCreation := some false
    userEmail := none
    showSSOBanner := true
    token := none
    page := initPage ps
    accessToken := none
    globalLitellmHeaderName := none
    urlParams := ps }

/-- A decoded payload carrying the viewer-admin role, used as a concrete
input by witnesses. -/
def viewerPayload : JwtPayload :=
  { key := some "sk-1234"
    user_role := some "proxy_admin_viewer"
    user_email := none
    login_method := none
    premium_user := none
    disabled_non_admin_personal_key_creation := none
    auth_header_name := none }

/-- Auxiliary: the exact value of `accessToken` after the token-decoding
effect, for every input state. -/
theorem tokenDecodeEffect_accessToken (decode : String → Option JwtPayload)
    (s : DashState) :
    (tokenDecodeEffect decode s).accessToken =
      match s.token with
      | none => s.accessToken
      | some t =>
        if t = "" then s.accessToken
        else
          match decode t with
          | none => s.accessToken
          | some d => d.key := by
  unfold tokenDecodeEffect
  cases s.token with
  | none => rfl
  | some t =>
    by_cases ht : t = ""
    · simp [ht]
    · simp only [if_neg ht]
      cases decode t with
      | none => rfl
      | some d =>
        rw [stageHeader_accessToken, stagePremium_accessToken, stageSSO_accessToken,
          stageEmail_accessToken, stageRole_accessToken]
        rfl

/-! ## The claims -/

/-- Claim C1, counterexample: the claim says that while any of accessToken,
userID, userRole is null/empty, none of the three fetches is issued.  With
`accessToken = some "sk-1234"`, `userID = none` (null) and `userRole = ""`,
the organizations fetch is nevertheless issued, so the claim is false. -/
theorem refDataEffect_not_all_gated :
    ¬ (∀ (a u : Option String) (r : String), u = none →
        refDataEffect a u r =
          { fetchUserModels := false, fetchTeams := false, fetchOrganizations := false }) :=
  fun h => absurd (h (some "sk-1234") none "" rfl) (by decide)

/-- Claim C1, amended: the user-models and teams fetches are each triggered
only once all three of accessToken, userID and userRole are non-null and
non-empty, but the organizations fetch is triggered whenever accessToken
alone is non-null and non-empty, regardless of userID and userRole. -/
theorem refDataEffect_gating (a u : Option String) (r : String) :
    ((refDataEffect a u r).fetchUserModels = true ↔
      presentOpt a ∧ presentOpt u ∧ r ≠ "") ∧
    ((refDataEffect a u r).fetchTeams = true ↔
      presentOpt a ∧ presentOpt u ∧ r ≠ "") ∧
    ((refDataEffect a u r).fetchOrganizations = true ↔ presentOpt a) := by
  refine ⟨?_, ?_, ?_⟩ <;>
    simp [refDataEffect, Bool.and_eq_true, truthyOpt_eq_true_iff,
      truthyS_eq_true_iff, and_assoc]

/-- Claim C2: for every valid decoded token whose `user_role` field is
`"proxy_admin_viewer"`, after the token-decoding effect runs the in-memory
page state equals `"usage"`, for every state (hence for every present or
absent incoming `page` query parameter). -/
theorem tokenDecodeEffect_admin_viewer_page_usage
    (decode : String → Option JwtPayload) (s : DashState) (t : String)
    (d : JwtPayload) (ht : s.token = some t) (hne : t ≠ "")
    (hd : decode t = some d) (hrole : d.user_role = some "proxy_admin_viewer") :
    (tokenDecodeEffect decode s).page = "usage" :=
  tokenDecodeEffect_page_usage_aux decode s t d ht hne hd hrole

/-- Claim C2, witness: a concrete state whose URL carries `page=models`
still ends on the usage page after decoding a viewer-admin token. -/
theorem tokenDecodeEffect_admin_viewer_page_usage_witness :
    (tokenDecodeEffect (fun _ => some viewerPayload)
      { mkInitState [("page", "models")] with token := some "jwt-token" }).page = "usage" :=
  tokenDecodeEffect_admin_viewer_page_usage (fun _ => some viewerPayload)
    { mkInitState [("page", "models")] with token := some "jwt-token" }
    "jwt-token" viewerPayload rfl (by decide) rfl rfl

/-- Claim C3: every raw role string in the known set maps to its documented
label; every non-empty string the lookup table does not recognize (after
lower-casing, since the switch compares `userRole.toLowerCase()`) maps to
"Unknown Role"; the empty string and the undefined input map to
"Undefined Role". -/
theorem formatUserRole_table_spec :
    (∀ p ∈ roleTable, formatUserRole (some p.1) = p.2) ∧
    (∀ s : String, s ≠ "" → roleTable.lookup (jsToLowerCase s) = none →
      formatUserRole (some s) = "Unknown Role") ∧
    formatUserRole (some "") = "Undefined Role" ∧
    formatUserRole none = "Undefined Role" := by
  refine ⟨?_, ?_, by decide, rfl⟩
  · intro p hp
    fin_cases hp <;> decide
  · intro s hs hlook
    have hform : formatUserRole (some s) = roleSwitch (jsToLowerCase s) := by
      simp [formatUserRole, hs]
    rw [hform, roleSwitch_eq_lookup, hlook]
    rfl

/-- Claim C3, witness: a known role and an unrecognized role evaluated at
concrete inputs. -/
theorem formatUserRole_table_spec_witness :
    formatUserRole (some "app_admin") = "Admin" ∧
    formatUserRole (some "superuser") = "Unknown Role" :=
  ⟨formatUserRole_table_spec.1 ("app_admin", "Admin") (by decide),
   formatUserRole_table_spec.2.1 "superuser" (by decide) (by decide)⟩

/-- Claim C4: for every string `X`, `updatePage X` makes the URL's `page`
query parameter equal to `X` and makes the in-memory page state `X`, and
the routing chain renders the panel the known table assigns to `X`, or the
default Usage panel when `X` is not a known identifier; no string is
rejected. -/
theorem updatePage_selectPanel_spec (X : String) (s : DashState) :
    paramsGet (updatePage X s).urlParams "page" = some X ∧
    (updatePage X s).page = X ∧
    selectPanel ((updatePage X s).page) = (knownPanels.lookup X).getD Panel.usage := by
  refine ⟨paramsGet_paramsSet_same s.urlParams "page" X, rfl, ?_⟩
  exact selectPanel_eq_lookup X

/-- Claim C5: round-trip — after `updatePage "models"`, re-deriving the
initial page state from the resulting URL (as on reload) yields
`"models"`. -/
theorem updatePage_models_roundtrip (s : DashState) :
    initPage ((updatePage "models" s).urlParams) = "models" := by
  show initPage (paramsSet s.urlParams "page" "models") = "models"
  unfold initPage
  rw [paramsGet_paramsSet_same]
  decide

/-- Claim C6: starting from a state whose `accessToken` is null, after the
cookie-read and token-decoding effects `accessToken` is non-null exactly
when the cookie is present and non-empty, it decodes successfully, and the
decoded payload carries a `key` field. -/
theorem accessToken_iff_decoded_key (decode : String → Option JwtPayload)
    (cookie : Option String) (s : DashState) (h0 : s.accessToken = none) :
    ((tokenDecodeEffect decode (readTokenEffect cookie s)).accessToken ≠ none ↔
      ∃ t d, cookie = some t ∧ t ≠ "" ∧ decode t = some d ∧ d.key ≠ none) := by
  rw [tokenDecodeEffect_accessToken]
  cases cookie with
  | none => simp [readTokenEffect, h0]
  | some t =>
    by_cases ht : t = ""
    · subst ht
      simp [readTokenEffect, h0]
    · cases hdec : decode t with
      | none => simp [readTokenEffect, ht, hdec, h0]
      | some d => simp [readTokenEffect, ht, hdec, h0]

/-- Claim C6, witness: a present cookie decoding to a payload with a key
yields a non-null `accessToken`. -/
theorem accessToken_iff_decoded_key_witness :
    (tokenDecodeEffect (fun _ => some viewerPayload)
      (readTokenEffect (some "jwt-token") (mkInitState []))).accessToken ≠ none :=
  (accessToken_iff_decoded_key (fun _ => some viewerPayload) (some "jwt-token")
      (mkInitState []) rfl).mpr
    ⟨"jwt-token", viewerPayload, rfl, by decide, rfl, by decide⟩

/-- Claim C7: when the `page` query parameter is absent from the URL, the
initial in-memory page state is `"api-keys"`. -/
theorem initPage_default_api_keys (ps : List (String × String))
    (h : paramsGet ps "page" = none) : initPage ps = "api-keys" := by
  unfold initPage
  rw [h]

/-- Claim C7, witness: the empty query string has no `page` parameter and
yields the `"api-keys"` initial page. -/
theorem initPage_default_api_keys_witness :
    paramsGet [] "page" = none ∧ initPage [] = "api-keys" :=
  ⟨rfl, initPage_default_api_keys [] rfl⟩

/-- Claim C8: frame property — `updatePage X` rewrites only the `page`
query parameter; every other query parameter keeps its previous value. -/
theorem updatePage_frame (X : String) (s : DashState) (k : String)
    (h : k ≠ "page") :
    paramsGet (updatePage X s).urlParams k = paramsGet s.urlParams k := by
  show paramsGet (paramsSet s.urlParams "page" X) k = paramsGet s.urlParams k
  exact paramsGet_paramsSet_other s.urlParams "page" X k h

/-- Claim C8, witness: `userID` survives `updatePage "models"` on a URL
that carries `userID` and `invitation_id`. -/
theorem updatePage_frame_witness :
    paramsGet (updatePage "models"
        (mkInitState [("userID", "u-42"), ("invitation_id", "inv-7")])).urlParams "userID" =
      paramsGet (mkInitState [("userID", "u-42"), ("invitation_id", "inv-7")]).urlParams "userID" ∧
    paramsGet (mkInitState [("userID", "u-42"), ("invitation_id", "inv-7")]).urlParams "userID" =
      some "u-42" :=
  ⟨updatePage_frame "models" (mkInitState [("userID", "u-42"), ("invitation_id", "inv-7")])
      "userID" (by decide), by decide⟩

/-- Claim C9: the viewer-admin redirect sets only the in-memory page state
to `"usage"` (it calls `setPage`, not `updatePage`); the URL query
parameters are left unchanged by the token-decoding effect, so the URL's
`page` parameter and the in-memory page state may afterwards differ. -/
theorem admin_viewer_redirect_frame (decode : String → Option JwtPayload)
    (s : DashState) (t : String) (d : JwtPayload) (ht : s.token = some t)
    (hne : t ≠ "") (hd : decode t = some d)
    (hrole : d.user_role = some "proxy_admin_viewer") :
    (tokenDecodeEffect decode s).page = "usage" ∧
    (tokenDecodeEffect decode s).urlParams = s.urlParams :=
  ⟨tokenDecodeEffect_page_usage_aux decode s t d ht hne hd hrole,
   tokenDecodeEffect_urlParams decode s⟩

/-- Claim C9, witness: on a URL carrying `page=api-keys`, the redirect
leaves the URL parameter at `"api-keys"` while the page state is
`"usage"`. -/
theorem admin_viewer_redirect_frame_witness :
    (tokenDecodeEffect (fun _ => some viewerPayload)
      { mkInitState [("page", "api-keys")] with token := some "jwt-token" }).page = "usage" ∧
    (tokenDecodeEffect (fun _ => some viewerPayload)
      { mkInitState [("page", "api-keys")] with token := some "jwt-token" }).urlParams =
      [("page", "api-keys")] ∧
    paramsGet [("page", "api-keys")] "page" = some "api-keys" :=
  ⟨(admin_viewer_redirect_frame (fun _ => some viewerPayload)
      { mkInitState [("page", "api-keys")] with token := some "jwt-token" }
      "jwt-token" viewerPayload rfl (by decide) rfl rfl).1,
   (admin_viewer_redirect_frame (fun _ => some viewerPayload)
      { mkInitState [("page", "api-keys")] with token := some "jwt-token" }
      "jwt-token" viewerPayload rfl (by decide) rfl rfl).2,
   by decide⟩

/-- Claim C10: `formatUserRole` is case-insensitive — for every non-empty
string, it returns the same label as on the lower-cased string. -/
theorem formatUserRole_case_insensitive (s : String) (h : s ≠ "") :
    formatUserRole (some s) = formatUserRole (some (jsToLowerCase s)) := by
  have h2 : jsToLowerCase s ≠ "" := fun he => h ((jsToLowerCase_eq_empty_iff s).mp he)
  simp only [formatUserRole, if_neg h, if_neg h2, jsToLowerCase_idem]

/-- Claim C10, witness: `"PROXY_ADMIN"` and its lower-cased form both map
to `"Admin"`. -/
theorem formatUserRole_case_insensitive_witness :
    formatUserRole (some "PROXY_ADMIN") = formatUserRole (some (jsToLowerCase "PROXY_ADMIN")) ∧
    formatUserRole (some "PROXY_ADMIN") = "Admin" :=
  ⟨formatUserRole_case_insensitive "PROXY_ADMIN" (by decide), by decide⟩

end LitellmDashboard
